import Mathlib

/-!
Smart-Farm-IOT dashboard: `src/App.js`

A shallow embedding of the logic of the `SmartFarmDashboard` component:
the threshold classifier `getStatusInfo`, the summary `systemStatus`, the
banner, the greeting, the theme toggle and the state update of `fetchData`.

JavaScript numbers are modelled by `JSNumber`: `NaN`, the two infinities and
the finite values, the latter as exact rationals (every finite double is a
rational, and the comparisons of the program are exact on them; `-0` and `+0`
compare equal everywhere in the program and are merged).
-/

namespace SmartFarm

/-! ## JavaScript numbers -/

/-- A JavaScript Number value. -/
inductive JSNumber where
  | nan
  | negInf
  | fin (q : ℚ)
  | posInf
  deriving DecidableEq

namespace JSNumber

/-- The relational operator `a < b` on numbers: `false` as soon as an operand is `NaN`. -/
def lt : JSNumber → JSNumber → Bool
  | nan, _ => false
  | _, nan => false
  | negInf, negInf => false
  | negInf, _ => true
  | _, negInf => false
  | posInf, _ => false
  | fin _, posInf => true
  | fin a, fin b => decide (a < b)

/-- The relational operator `a > b`, which JavaScript evaluates as `b < a`. -/
def gt (a b : JSNumber) : Bool := lt b a

/-- ToBoolean on a number: `0` and `NaN` are falsy, everything else is truthy. -/
def truthy : JSNumber → Bool
  | nan => false
  | fin q => decide (q ≠ 0)
  | _ => true

/-- The expression `x || 0` for a number `x`. -/
def orZero (x : JSNumber) : JSNumber := if x.truthy then x else fin 0

end JSNumber

/-! ## `getStatusInfo` (App.js, lines 75-119) -/

/-- The `colors` object of one entry of `statuses`; a colour that the entry does
not define reads as `undefined` (`none`). -/
structure ColorTable where
  critical : Option String
  warning : Option String
  optimal : String
  deriving DecidableEq

/-- One entry of the `statuses` object literal; `critical` and `warning` are
`none` where the entry does not define the property (the `default` entry). -/
structure StatusEntry where
  critical : Option Bool
  warning : Option Bool
  colors : ColorTable
  deriving DecidableEq

/-- What the property read `statuses[type]` can yield when it is not `undefined`:
one of the four entries of the literal, or a member that the literal inherits
from `Object.prototype` (a function, or the prototype object itself). -/
inductive JSObject where
  | statusEntry (e : StatusEntry)
  | inherited
  deriving DecidableEq

/-- A thrown exception (or the reason of a rejected promise). -/
inductive JSError where
  | typeError
  | syntaxError
  | error
  deriving DecidableEq

deriving instance DecidableEq for Except

/-- Property names that every object literal inherits from `Object.prototype`. -/
def objectPrototypeKeys : List String :=
  ["constructor", "__defineGetter__", "__defineSetter__", "hasOwnProperty",
   "__lookupGetter__", "__lookupSetter__", "isPrototypeOf", "propertyIsEnumerable",
   "toString", "valueOf", "__proto__", "toLocaleString"]

/-- The entry `statuses.soil`. -/
def statusesSoil (value : JSNumber) : StatusEntry :=
  { critical := some (value.lt (.fin 30))
    warning := some (value.lt (.fin 40))
    colors := { critical := some "red", warning := some "orange", optimal := "green" } }

/-- The entry `statuses.temp`. -/
def statusesTemp (value : JSNumber) : StatusEntry :=
  { critical := some (value.lt (.fin 15) || value.gt (.fin 35))
    warning := some (value.lt (.fin 20) || value.gt (.fin 30))
    colors := { critical := some "red", warning := some "orange", optimal := "blue" } }

/-- The entry `statuses.humidity`. -/
def statusesHumidity (value : JSNumber) : StatusEntry :=
  { critical := some (value.lt (.fin 25) || value.gt (.fin 90))
    warning := some (value.lt (.fin 35) || value.gt (.fin 80))
    colors := { critical := some "cyan", warning := some "orange", optimal := "cyan" } }

/-- The entry `statuses.default`. -/
def statusesDefault : StatusEntry :=
  { critical := none
    warning := none
    colors := { critical := none, warning := none, optimal := "gray" } }

/-- The property read `statuses[type]`; `none` is `undefined`. Own properties
come first, then the prototype chain. -/
def statuses (value : JSNumber) (type : String) : Option JSObject :=
  if type = "soil" then some (.statusEntry (statusesSoil value))
  else if type = "temp" then some (.statusEntry (statusesTemp value))
  else if type = "humidity" then some (.statusEntry (statusesHumidity value))
  else if type = "default" then some (.statusEntry statusesDefault)
  else if type ∈ objectPrototypeKeys then some .inherited
  else none

/-- ToBoolean on `current.critical` / `current.warning`. -/
def flagSet (b : Option Bool) : Bool := b = some true

/-- Lines 97-107: the label `status` and the colour key `color`. An object is
always truthy, so `statuses[type] || statuses.default` falls back only on
`undefined`; reading `.optimal` of the missing `colors` of an inherited member
throws. -/
def statusAndColor (type : String) (value : JSNumber) :
    Except JSError (String × Option String) :=
  match (statuses value type).getD (.statusEntry statusesDefault) with
  | .inherited => .error .typeError
  | .statusEntry current =>
    if flagSet current.critical then .ok ("Critical", current.colors.critical)
    else if flagSet current.warning then .ok ("Warning", current.colors.warning)
    else .ok ("Optimal", some current.colors.optimal)

/-- One entry of `colorMap`. -/
structure Style where
  gradient : String
  text : String
  bg : String
  shadow : String
  deriving DecidableEq

/-- The table `colorMap` (lines 109-116), read at a colour key. -/
def colorMap (color : String) : Option Style :=
  if color = "red" then
    some ⟨"from-red-500 to-red-600", "text-red-500", "bg-red-50 dark:bg-red-900/20",
      "hover:shadow-red-500/30"⟩
  else if color = "orange" then
    some ⟨"from-orange-400 to-orange-500", "text-orange-500",
      "bg-orange-50 dark:bg-orange-900/20", "hover:shadow-orange-400/30"⟩
  else if color = "green" then
    some ⟨"from-green-500 to-emerald-500", "text-green-500",
      "bg-green-50 dark:bg-green-900/20", "hover:shadow-green-500/30"⟩
  else if color = "blue" then
    some ⟨"from-blue-500 to-blue-600", "text-blue-500", "bg-blue-50 dark:bg-blue-900/20",
      "hover:shadow-blue-500/30"⟩
  else if color = "cyan" then
    some ⟨"from-cyan-400 to-sky-500", "text-cyan-500", "bg-cyan-50 dark:bg-cyan-900/20",
      "hover:shadow-cyan-400/30"⟩
  else if color = "gray" then
    some ⟨"from-slate-500 to-slate-600", "text-slate-500",
      "bg-slate-50 dark:bg-slate-900/20", "hover:shadow-slate-500/30"⟩
  else none

/-- The object returned by `getStatusInfo`: `status` and the spread entry of
`colorMap` (`none` when the spread operand is `undefined`). -/
structure StatusInfo where
  status : String
  style : Option Style
  deriving DecidableEq

/-- The function `getStatusInfo(type, value)`. -/
def getStatusInfo (type : String) (value : JSNumber) : Except JSError StatusInfo :=
  match statusAndColor type value with
  | .error e => .error e
  | .ok (status, color) => .ok { status := status, style := color.bind colorMap }

/-- The label of a call that returned, `none` for a call that threw. -/
def statusOf (type : String) (value : JSNumber) : Option String :=
  match getStatusInfo type value with
  | .ok info => some info.status
  | .error _ => none

/-! ## Number parsing: `parseFloat`, `parseInt`

The two built-ins follow ECMAScript (`parseFloat`: 19.2.4, `parseInt`: 19.2.5):
the argument is converted to a string, leading white space is removed, and the
longest prefix that is a numeral is converted; `NaN` when there is none. -/

/-- Nearest natural number to `n / d`, ties to even. -/
def roundHalfEven (n d : Nat) : Nat :=
  let q := n / d
  let r := n % d
  if 2 * r < d then q
  else if d < 2 * r then q + 1
  else if q % 2 = 0 then q
  else q + 1

/-- The value `m * 2 ^ u` as a rational. -/
def scale2 (m : Nat) (u : Int) : ℚ :=
  if 0 ≤ u then ((m * 2 ^ u.toNat : Nat) : ℚ) else mkRat m (2 ^ (-u).toNat)

/-- The Number value of a real: the IEEE 754 binary64 value nearest to `x`
(round to nearest, ties to even, overflow to an infinity). -/
def toDouble (x : ℚ) : JSNumber :=
  if x = 0 then .fin 0
  else
    let n := x.num.natAbs
    let d := x.den
    let e0 : Int := (Nat.log2 n : Int) - (Nat.log2 d : Int)
    -- `e` is the binary exponent of `n / d`: `2 ^ e ≤ n / d < 2 ^ (e + 1)`
    let e : Int :=
      if (if 0 ≤ e0 then d * 2 ^ e0.toNat ≤ n else d ≤ n * 2 ^ (-e0).toNat) then e0
      else e0 - 1
    -- exponent of the unit in the last place (subnormal below `2 ^ (-1022)`)
    let u : Int := max e (-1022) - 52
    let m : Nat :=
      if 0 ≤ u then roundHalfEven n (d * 2 ^ u.toNat)
      else roundHalfEven (n * 2 ^ (-u).toNat) d
    let mag := scale2 m u
    if ((2 ^ 1024 : Nat) : ℚ) ≤ mag then (if x < 0 then .negInf else .posInf)
    else .fin (if x < 0 then -mag else mag)

/-- White space and line terminators, the code points that `TrimString` removes. -/
def isWhiteSpace (c : Char) : Bool :=
  c.toNat ∈ [9, 10, 11, 12, 13, 32, 160, 5760, 8232, 8233, 8239, 8287, 12288, 65279]
    || (8192 ≤ c.toNat && c.toNat ≤ 8202)

/-- A decimal digit. -/
def isDigit (c : Char) : Bool := 48 ≤ c.toNat && c.toNat ≤ 57

/-- A hexadecimal digit. -/
def isHexDigit (c : Char) : Bool :=
  isDigit c || (97 ≤ c.toNat && c.toNat ≤ 102) || (65 ≤ c.toNat && c.toNat ≤ 70)

/-- The value of a digit of radix up to 16. -/
def digitVal (c : Char) : Nat :=
  if isDigit c then c.toNat - 48
  else if 97 ≤ c.toNat then c.toNat - 87
  else c.toNat - 55

/-- The value of a digit string in the given radix. -/
def digitsValue (radix : Nat) (ds : List Char) : Nat :=
  ds.foldl (fun acc c => radix * acc + digitVal c) 0

/-- The value `n * 10 ^ e` as a rational. -/
def scale10 (n : Nat) (e : Int) : ℚ :=
  if 0 ≤ e then ((n * 10 ^ e.toNat : Nat) : ℚ) else mkRat n (10 ^ (-e).toNat)

/-- An optional sign in front of a numeral: whether it is `-`, and what follows
the sign. -/
def splitSign (cs : List Char) : Bool × List Char :=
  match cs with
  | [] => (false, [])
  | c :: r => if c = '-' then (true, r) else if c = '+' then (false, r) else (false, c :: r)

/-- The exponent part after the exponent indicator: an optional sign and
digits; `none` when no digit follows. -/
def parseExponent (cs : List Char) : Option Int :=
  let signed := splitSign cs
  let digits := signed.2.takeWhile isDigit
  if digits = [] then none
  else some (if signed.1 then -(digitsValue 10 digits : Int) else (digitsValue 10 digits : Int))

/-- The digits after a decimal point, and what follows them; no digits when the
rest does not start with a point. -/
def splitFraction (afterInt : List Char) : List Char × List Char :=
  match afterInt with
  | [] => ([], [])
  | c :: r => if c = '.' then (r.takeWhile isDigit, r.dropWhile isDigit) else ([], c :: r)

/-- The decimal exponent written after the mantissa, `0` when there is none. -/
def exponentOf (afterFrac : List Char) : Int :=
  match afterFrac with
  | [] => 0
  | c :: r => if c = 'e' ∨ c = 'E' then (parseExponent r).getD 0 else 0

/-- The built-in `parseFloat` on the characters of the string. -/
def parseFloatChars (input : List Char) : JSNumber :=
  let signed := splitSign (input.dropWhile isWhiteSpace)
  let cs := signed.2
  if "Infinity".toList.isPrefixOf cs then (if signed.1 then .negInf else .posInf)
  else
    let intDigits := cs.takeWhile isDigit
    let frac := splitFraction (cs.dropWhile isDigit)
    let fracDigits := frac.1
    if intDigits = [] ∧ fracDigits = [] then .nan
    else
      let exp := exponentOf frac.2
      let mag := scale10 (digitsValue 10 (intDigits ++ fracDigits)) (exp - fracDigits.length)
      toDouble (if signed.1 then -mag else mag)

/-- The radix prefix `0x` or `0X`: the radix, and what follows the prefix. -/
def splitRadix (cs : List Char) : Nat × List Char :=
  match cs with
  | c0 :: c1 :: r => if c0 = '0' ∧ (c1 = 'x' ∨ c1 = 'X') then (16, r) else (10, c0 :: c1 :: r)
  | _ => (10, cs)

/-- The built-in `parseInt` with the radix left `undefined`, on the characters
of the string. The digits are converted exactly and then rounded (ECMAScript
lets an implementation approximate after the 20th significant digit). -/
def parseIntChars (input : List Char) : JSNumber :=
  let signed := splitSign (input.dropWhile isWhiteSpace)
  let prefixed := splitRadix signed.2
  let digits := prefixed.2.takeWhile (if prefixed.1 = 16 then isHexDigit else isDigit)
  if digits = [] then .nan
  else
    let mag : ℚ := (digitsValue prefixed.1 digits : ℚ)
    toDouble (if signed.1 then -mag else mag)

/-- A value read from a property of a feed entry. -/
inductive JSValue where
  | undefined
  | null
  | string (s : String)
  deriving DecidableEq

/-- The conversion ToString. -/
def JSValue.toJSString : JSValue → String
  | .undefined => "undefined"
  | .null => "null"
  | .string s => s

/-- The call `parseFloat(v)`. -/
def parseFloat (v : JSValue) : JSNumber := parseFloatChars v.toJSString.toList

/-- The call `parseInt(v)`. -/
def parseInt (v : JSValue) : JSNumber := parseIntChars v.toJSString.toList

/-! ## Numeric strings, in the words of the specification

The feed fields are documented as numerals in quotes (`"<num>"`, `"<int>"`). A
numeric string is an optional sign, one or more decimal digits and, optionally,
a point followed by one or more decimal digits. -/

/-- The object `new Date(arg)`; the date is a function of the argument, which is
all the model keeps of it. -/
structure JSDate where
  arg : JSValue
  deriving DecidableEq

/-- The state `data`: the current Reading. -/
structure Reading where
  soilMoisture : JSNumber
  temperature : JSNumber
  humidity : JSNumber
  pumpState : JSNumber
  lastUpdated : Option JSDate
  deriving DecidableEq

/-- No field of a Reading is `NaN`. -/
def Reading.noNaN (data : Reading) : Prop :=
  data.soilMoisture ≠ .nan ∧ data.temperature ≠ .nan ∧ data.humidity ≠ .nan ∧
    data.pumpState ≠ .nan

/-- The initial value of `data` (lines 13-19). -/
def initialData : Reading :=
  { soilMoisture := .fin 0
    temperature := .fin 0
    humidity := .fin 0
    pumpState := .fin 0
    lastUpdated := none }

/-- The initial value of `theme` (line 22). -/
def initialTheme : String := "dark"

/-- The local wall-clock time of `currentTime`; `hours` is what `getHours()`
returns. -/
structure LocalTime where
  hours : Nat
  minutes : Nat
  seconds : Nat
  deriving DecidableEq

/-- The state of the component. -/
structure AppState where
  data : Reading
  theme : String
  currentTime : LocalTime
  deriving DecidableEq

/-- The state right after mounting at local time `now`. -/
def initialState (now : LocalTime) : AppState :=
  { data := initialData, theme := initialTheme, currentTime := now }

/-! ## `fetchData` (App.js, lines 41-63) -/

/-- One entry of `result.feeds`, of the documented shape: an object whose
properties `field1` .. `field4` and `created_at` are strings, `null` or absent. -/
structure Feed where
  field1 : JSValue
  field2 : JSValue
  field3 : JSValue
  field4 : JSValue
  created_at : JSValue
  deriving DecidableEq

/-- The parsed response body `result`; `feeds` is `none` when the property is
absent (or `null`). -/
structure FeedsResult where
  feeds : Option (List Feed)
  deriving DecidableEq

/-- What one poll meets: `fetch` rejects (network error), or it resolves with a
response whose `ok` flag and status are given and whose body parses as JSON
(`some`) or does not (`none`). -/
inductive FetchOutcome where
  | networkError
  | response (ok : Bool) (status : Nat) (body : Option FeedsResult)
  deriving DecidableEq

/-- The argument of `setData` (lines 53-59). -/
def readingOfFeed (latestFeed : Feed) : Reading :=
  { soilMoisture := (parseFloat latestFeed.field1).orZero
    temperature := (parseFloat latestFeed.field2).orZero
    humidity := (parseFloat latestFeed.field3).orZero
    pumpState := (parseInt latestFeed.field4).orZero
    lastUpdated := some ⟨latestFeed.created_at⟩ }

/-- The body of the `try` block: an exception, or the argument of `setData` if
`setData` is reached (`none` for the early `return`). -/
def fetchDataTry (outcome : FetchOutcome) : Except JSError (Option Reading) :=
  match outcome with
  | .networkError => .error .typeError
  | .response ok _ body =>
    if !ok then .error .error
    else
      match body with
      | none => .error .syntaxError
      | some result =>
        match result.feeds with
        | none => .ok none
        | some [] => .ok none
        | some (latestFeed :: _) => .ok (some (readingOfFeed latestFeed))

/-- A poll delivers a feed entry when the response is a success, its body is
JSON and `feeds` is a non-empty list. -/
def FetchOutcome.delivers : FetchOutcome → Bool
  | .response true _ (some ⟨some (_ :: _)⟩) => true
  | _ => false

/-- The value of `data` after one run of `fetchData`: the `catch` block only
logs, so the state changes only if `setData` was reached. -/
def fetchData (data : Reading) (outcome : FetchOutcome) : Reading :=
  match fetchDataTry outcome with
  | .ok (some newData) => newData
  | .ok none => data
  | .error _ => data

/-! ## Derived values -/

/-- The summary object of `systemStatus`. -/
structure Summary where
  optimal : Nat
  warning : Nat
  critical : Nat
  deriving DecidableEq

/-- The memo `systemStatus` (lines 122-133). -/
def systemStatus (data : Reading) : Except JSError Summary :=
  match getStatusInfo "soil" data.soilMoisture with
  | .error e => .error e
  | .ok soil =>
    match getStatusInfo "humidity" data.humidity with
    | .error e => .error e
    | .ok humidity =>
      match getStatusInfo "temp" data.temperature with
      | .error e => .error e
      | .ok temp =>
        let statuses := [soil.status, humidity.status, temp.status]
        .ok { optimal := (statuses.filter (fun s => s = "Optimal")).length
              warning := (statuses.filter (fun s => s = "Warning")).length
              critical := (statuses.filter (fun s => s = "Critical")).length }

/-- The banner of the status summary (lines 245-249). -/
def banner (systemStatus : Summary) : String :=
  if systemStatus.warning = 0 ∧ systemStatus.critical = 0 then "All Systems Nominal"
  else "Action Recommended"

/-- The memo `greeting` (lines 136-141). -/
def greeting (currentTime : LocalTime) : String :=
  let hour := currentTime.hours
  if hour < 12 then "Good Morning"
  else if hour < 18 then "Good Afternoon"
  else "Good Evening"

/-! ## Events -/

/-- The click handler of `ThemeToggle` (line 184). -/
def toggleTheme (s : AppState) : AppState :=
  { s with theme := if s.theme = "light" then "dark" else "light" }

/-- The clock timer (line 36). -/
def tick (s : AppState) (now : LocalTime) : AppState :=
  { s with currentTime := now }

/-- One poll (lines 66-72 run `fetchData` at once and every 15 s). -/
def poll (s : AppState) (outcome : FetchOutcome) : AppState :=
  { s with data := fetchData s.data outcome }

/-! ## Lemmas on `getStatusInfo` -/

theorem statusAndColor_soil (v : JSNumber) :
    statusAndColor "soil" v =
      .ok (if v.lt (.fin 30) then ("Critical", some "red")
        else if v.lt (.fin 40) then ("Warning", some "orange")
        else ("Optimal", some "green")) := by
  simp only [statusAndColor, statuses, statusesSoil, flagSet]
  by_cases h1 : v.lt (.fin 30) = true <;> by_cases h2 : v.lt (.fin 40) = true <;> simp [h1, h2]

theorem statusAndColor_temp (v : JSNumber) :
    statusAndColor "temp" v =
      .ok (if (v.lt (.fin 15) || v.gt (.fin 35)) then ("Critical", some "red")
        else if (v.lt (.fin 20) || v.gt (.fin 30)) then ("Warning", some "orange")
        else ("Optimal", some "blue")) := by
  simp only [statusAndColor, statuses, statusesTemp, flagSet]
  by_cases h1 : (v.lt (.fin 15) || v.gt (.fin 35)) = true <;>
    by_cases h2 : (v.lt (.fin 20) || v.gt (.fin 30)) = true <;> simp [h1, h2]

theorem statusAndColor_humidity (v : JSNumber) :
    statusAndColor "humidity" v =
      .ok (if (v.lt (.fin 25) || v.gt (.fin 90)) then ("Critical", some "cyan")
        else if (v.lt (.fin 35) || v.gt (.fin 80)) then ("Warning", some "orange")
        else ("Optimal", some "cyan")) := by
  simp only [statusAndColor, statuses, statusesHumidity, flagSet]
  by_cases h1 : (v.lt (.fin 25) || v.gt (.fin 90)) = true <;>
    by_cases h2 : (v.lt (.fin 35) || v.gt (.fin 80)) = true <;> simp [h1, h2]

theorem statusOf_eq (t : String) (v : JSNumber) :
    statusOf t v = match statusAndColor t v with
      | .ok r => some r.1
      | .error _ => none := by
  unfold statusOf getStatusInfo
  cases statusAndColor t v <;> rfl

/-- A kind that is neither an own key of `statuses` nor inherited from
`Object.prototype` is classified Optimal with the colour gray, whatever the
value. -/
theorem getStatusInfo_fallback (type : String) (v : JSNumber)
    (h1 : type ≠ "soil") (h2 : type ≠ "temp") (h3 : type ≠ "humidity")
    (h4 : type ∉ objectPrototypeKeys) :
    getStatusInfo type v = .ok { status := "Optimal", style := colorMap "gray" } := by
  by_cases h5 : type = "default"
  · subst h5
    rfl
  · simp [getStatusInfo, statusAndColor, statuses, h1, h2, h3, h4, h5, statusesDefault,
      flagSet]

/-! ## `NaN` never reaches the classifier -/

theorem orZero_ne_nan (x : JSNumber) : x.orZero ≠ .nan := by
  cases x with
  | nan => simp [JSNumber.orZero, JSNumber.truthy]
  | negInf => simp [JSNumber.orZero, JSNumber.truthy]
  | posInf => simp [JSNumber.orZero, JSNumber.truthy]
  | fin q => by_cases hq : q = 0 <;> simp [JSNumber.orZero, JSNumber.truthy, hq]

/-- Whatever the polls meet, the Reading never holds `NaN`: the values that
`getStatusInfo` receives from the component are finite or infinite numbers. -/
theorem poll_noNaN (now : LocalTime) (outcomes : List FetchOutcome) :
    (outcomes.foldl poll (initialState now)).data.noNaN := by
  suffices h : ∀ s : AppState, s.data.noNaN → (outcomes.foldl poll s).data.noNaN from
    h (initialState now) (by simp [initialState, initialData, Reading.noNaN])
  induction outcomes with
  | nil => intro s hs; exact hs
  | cons o os ih =>
    intro s hs
    rw [List.foldl_cons]
    apply ih
    show (fetchData s.data o).noNaN
    unfold fetchData
    cases h : fetchDataTry o with
    | error e => exact hs
    | ok r =>
      cases r with
      | none => exact hs
      | some newData =>
        have : ∃ feed, newData = readingOfFeed feed := by
          unfold fetchDataTry at h
          split at h
          · simp at h
          · split at h
            · simp at h
            · split at h
              · simp at h
              · split at h
                · simp at h
                · simp at h
                · rename_i latestFeed _ _
                  exact ⟨latestFeed, by simpa using h.symm⟩
        obtain ⟨feed, rfl⟩ := this
        exact ⟨orZero_ne_nan _, orZero_ne_nan _, orZero_ne_nan _, orZero_ne_nan _⟩

/-- The value `NaN`, which fails every comparison, is labelled Optimal. -/
theorem statusOf_nan :
    statusOf "soil" .nan = some "Optimal" ∧ statusOf "temp" .nan = some "Optimal" ∧
      statusOf "humidity" .nan = some "Optimal" := by
  decide

/-! ## C1: thresholds -/

/-- C1: for every finite value `q`, `getStatusInfo` labels soil Critical iff
`q < 30`, Warning iff `30 ≤ q < 40`, Optimal iff `q ≥ 40`; temperature (key
`temp`) Critical iff `q < 15` or `q > 35`, Warning iff `15 ≤ q < 20` or
`30 < q ≤ 35`, Optimal iff `20 ≤ q ≤ 30`; humidity Critical iff `q < 25` or
`q > 90`, Warning iff `25 ≤ q < 35` or `80 < q ≤ 90`, Optimal iff `35 ≤ q ≤ 80`.
Soil 30 is Warning, soil 40 is Optimal, temperature 15 and 35 and humidity 25
and 90 are not Critical. The infinite values follow the same table. -/
theorem getStatusInfo_thresholds :
    (∀ q : ℚ,
      (statusOf "soil" (.fin q) = some "Critical" ↔ q < 30) ∧
      (statusOf "soil" (.fin q) = some "Warning" ↔ 30 ≤ q ∧ q < 40) ∧
      (statusOf "soil" (.fin q) = some "Optimal" ↔ 40 ≤ q) ∧
      (statusOf "temp" (.fin q) = some "Critical" ↔ q < 15 ∨ 35 < q) ∧
      (statusOf "temp" (.fin q) = some "Warning" ↔ (15 ≤ q ∧ q < 20) ∨ (30 < q ∧ q ≤ 35)) ∧
      (statusOf "temp" (.fin q) = some "Optimal" ↔ 20 ≤ q ∧ q ≤ 30) ∧
      (statusOf "humidity" (.fin q) = some "Critical" ↔ q < 25 ∨ 90 < q) ∧
      (statusOf "humidity" (.fin q) = some "Warning" ↔
        (25 ≤ q ∧ q < 35) ∨ (80 < q ∧ q ≤ 90)) ∧
      (statusOf "humidity" (.fin q) = some "Optimal" ↔ 35 ≤ q ∧ q ≤ 80)) ∧
    statusOf "soil" (.fin 30) = some "Warning" ∧
    statusOf "soil" (.fin 40) = some "Optimal" ∧
    statusOf "temp" (.fin 15) ≠ some "Critical" ∧
    statusOf "temp" (.fin 35) ≠ some "Critical" ∧
    statusOf "humidity" (.fin 25) ≠ some "Critical" ∧
    statusOf "humidity" (.fin 90) ≠ some "Critical" ∧
    statusOf "soil" .negInf = some "Critical" ∧
    statusOf "soil" .posInf = some "Optimal" ∧
    statusOf "temp" .negInf = some "Critical" ∧
    statusOf "temp" .posInf = some "Critical" ∧
    statusOf "humidity" .negInf = some "Critical" ∧
    statusOf "humidity" .posInf = some "Critical" := by
  refine ⟨fun q => ?_, by decide, by decide, by decide, by decide, by decide, by decide,
    by decide, by decide, by decide, by decide, by decide, by decide⟩
  simp only [statusOf_eq, statusAndColor_soil, statusAndColor_temp, statusAndColor_humidity,
    JSNumber.lt, JSNumber.gt]
  refine ⟨?_, ?_, ?_, ?_, ?_, ?_, ?_, ?_, ?_⟩
  iterate 3
    · by_cases h1 : q < 30 <;> by_cases h2 : q < 40 <;> simp [h1, h2] <;> linarith
  iterate 3
    · by_cases h1 : q < 15 <;> by_cases h2 : 35 < q <;> by_cases h3 : q < 20 <;>
      by_cases h4 : 30 < q <;> simp [h1, h2, h3, h4] <;>
      first
        | linarith
        | (constructor <;> linarith)
  iterate 3
    · by_cases h1 : q < 25 <;> by_cases h2 : 90 < q <;> by_cases h3 : q < 35 <;>
      by_cases h4 : 80 < q <;> simp [h1, h2, h3, h4] <;>
      first
        | linarith
        | (constructor <;> linarith)

/-! ## C2: kinds outside the table -/

theorem statusOf_soil_cases (v : JSNumber) :
    statusOf "soil" v = some "Critical" ∨ statusOf "soil" v = some "Warning" ∨
      statusOf "soil" v = some "Optimal" := by
  rw [statusOf_eq, statusAndColor_soil]
  by_cases h1 : v.lt (.fin 30) = true <;> by_cases h2 : v.lt (.fin 40) = true <;> simp [h1, h2]

theorem statusOf_temp_cases (v : JSNumber) :
    statusOf "temp" v = some "Critical" ∨ statusOf "temp" v = some "Warning" ∨
      statusOf "temp" v = some "Optimal" := by
  rw [statusOf_eq, statusAndColor_temp]
  by_cases h1 : (v.lt (.fin 15) || v.gt (.fin 35)) = true <;>
    by_cases h2 : (v.lt (.fin 20) || v.gt (.fin 30)) = true <;> simp [h1, h2]

theorem statusOf_humidity_cases (v : JSNumber) :
    statusOf "humidity" v = some "Critical" ∨ statusOf "humidity" v = some "Warning" ∨
      statusOf "humidity" v = some "Optimal" := by
  rw [statusOf_eq, statusAndColor_humidity]
  by_cases h1 : (v.lt (.fin 25) || v.gt (.fin 90)) = true <;>
    by_cases h2 : (v.lt (.fin 35) || v.gt (.fin 80)) = true <;> simp [h1, h2]

/-- The summary, given the labels of the three sensors. -/
theorem systemStatus_of_labels (data : Reading) (a b c : String)
    (ha : statusOf "soil" data.soilMoisture = some a)
    (hb : statusOf "humidity" data.humidity = some b)
    (hc : statusOf "temp" data.temperature = some c) :
    systemStatus data =
      .ok { optimal := [a, b, c].count "Optimal"
            warning := [a, b, c].count "Warning"
            critical := [a, b, c].count "Critical" } := by
  unfold statusOf at ha hb hc
  unfold systemStatus
  cases h1 : getStatusInfo "soil" data.soilMoisture with
  | error e => simp [h1] at ha
  | ok i1 =>
    cases h2 : getStatusInfo "humidity" data.humidity with
    | error e => simp [h2] at hb
    | ok i2 =>
      cases h3 : getStatusInfo "temp" data.temperature with
      | error e => simp [h3] at hc
      | ok i3 =>
        simp only [h1, h2, h3, Option.some.injEq] at ha hb hc
        subst ha hb hc
        have key : ∀ (x : String) (l : List String),
            (l.filter (fun s => decide (s = x))).length = l.count x := by
          intro x l
          rw [List.count, List.countP_eq_length_filter]
          congr 2
        simp only [key]

/-- C6: for every Reading, `systemStatus` returns the summary that counts the
labels of the three sensors soil, humidity and temperature, its three counts sum
to 3, and it does not depend on the pump state (nor on the timestamp). -/
theorem systemStatus_counts_three_sensors (data : Reading) :
    (∃ soil humidity temp : String,
      statusOf "soil" data.soilMoisture = some soil ∧
      statusOf "humidity" data.humidity = some humidity ∧
      statusOf "temp" data.temperature = some temp ∧
      ∃ s : Summary, systemStatus data = .ok s ∧
        s.optimal = [soil, humidity, temp].count "Optimal" ∧
        s.warning = [soil, humidity, temp].count "Warning" ∧
        s.critical = [soil, humidity, temp].count "Critical" ∧
        s.optimal + s.warning + s.critical = 3) ∧
    (∀ (pumpState : JSNumber) (lastUpdated : Option JSDate),
      systemStatus { data with pumpState := pumpState, lastUpdated := lastUpdated } =
        systemStatus data) := by
  refine ⟨?_, fun _ _ => rfl⟩
  rcases statusOf_soil_cases data.soilMoisture with ha | ha | ha <;>
  rcases statusOf_humidity_cases data.humidity with hb | hb | hb <;>
  rcases statusOf_temp_cases data.temperature with hc | hc | hc <;>
  exact ⟨_, _, _, ha, hb, hc, _, systemStatus_of_labels data _ _ _ ha hb hc, rfl, rfl, rfl,
    by decide⟩

/-- C7: for every Reading the banner is "All Systems Nominal" iff the summary
has `warning = 0` and `critical = 0`, which holds iff `optimal = 3`, that is iff
soil, humidity and temperature are all labelled Optimal; in every other case
the banner is "Action Recommended". -/
theorem banner_nominal_iff_all_optimal (data : Reading) :
    ∃ s : Summary, systemStatus data = .ok s ∧
      (banner s = "All Systems Nominal" ↔ s.warning = 0 ∧ s.critical = 0) ∧
      (s.warning = 0 ∧ s.critical = 0 ↔ s.optimal = 3) ∧
      (s.optimal = 3 ↔
        statusOf "soil" data.soilMoisture = some "Optimal" ∧
        statusOf "humidity" data.humidity = some "Optimal" ∧
        statusOf "temp" data.temperature = some "Optimal") ∧
      (banner s = "All Systems Nominal" ∨ banner s = "Action Recommended") ∧
      (banner s = "Action Recommended" ↔ ¬ (s.warning = 0 ∧ s.critical = 0)) := by
  rcases statusOf_soil_cases data.soilMoisture with ha | ha | ha <;>
  rcases statusOf_humidity_cases data.humidity with hb | hb | hb <;>
  rcases statusOf_temp_cases data.temperature with hc | hc | hc <;>
  exact ⟨_, systemStatus_of_labels data _ _ _ ha hb hc, by simp [ha, hb, hc, banner]⟩

/-! ## C8: greeting -/

/-- C8: for every hour (in particular every hour in 0..23) the greeting is
"Good Morning" iff `hour < 12`, "Good Afternoon" iff `12 ≤ hour < 18` and
"Good Evening" iff `hour ≥ 18`; hour 11 gives "Good Morning", hour 12 gives
"Good Afternoon", hour 18 gives "Good Evening". -/
theorem greeting_by_hour :
    (∀ t : LocalTime,
      (greeting t = "Good Morning" ↔ t.hours < 12) ∧
      (greeting t = "Good Afternoon" ↔ 12 ≤ t.hours ∧ t.hours < 18) ∧
      (greeting t = "Good Evening" ↔ 18 ≤ t.hours)) ∧
    (∀ m s : Nat, greeting ⟨11, m, s⟩ = "Good Morning" ∧
      greeting ⟨12, m, s⟩ = "Good Afternoon" ∧ greeting ⟨18, m, s⟩ = "Good Evening") := by
  refine ⟨fun t => ?_, fun m s => ⟨rfl, rfl, rfl⟩⟩
  unfold greeting
  by_cases h1 : t.hours < 12 <;> by_cases h2 : t.hours < 18 <;> simp [h1, h2] <;> omega

/-! ## C9: theme toggle -/

/-- C9: the theme starts as dark; the toggle maps dark to light and light to
dark; on a state whose theme is light or dark, toggling twice gives the state
back; the toggle leaves the Reading and the clock unchanged. -/
theorem toggleTheme_flips_theme_only :
    initialTheme = "dark" ∧
    (∀ now, (initialState now).theme = "dark") ∧
    (∀ s : AppState, s.theme = "dark" → (toggleTheme s).theme = "light") ∧
    (∀ s : AppState, s.theme = "light" → (toggleTheme s).theme = "dark") ∧
    (∀ s : AppState, s.theme = "light" ∨ s.theme = "dark" → toggleTheme (toggleTheme s) = s) ∧
    (∀ s : AppState, (toggleTheme s).data = s.data ∧
      (toggleTheme s).currentTime = s.currentTime) := by
  refine ⟨rfl, fun _ => rfl, ?_, ?_, ?_, fun _ => ⟨rfl, rfl⟩⟩
  · intro s h
    simp [toggleTheme, h]
  · intro s h
    simp [toggleTheme, h]
  · rintro ⟨d, th, ct⟩ (h | h) <;> simp only at h <;> subst h <;> simp [toggleTheme]

/-- Witness of C9 at the state after mounting at 10:30:00. -/
theorem toggleTheme_flips_theme_only_witness :
    toggleTheme (toggleTheme (initialState ⟨10, 30, 0⟩)) = initialState ⟨10, 30, 0⟩ :=
  toggleTheme_flips_theme_only.2.2.2.2.1 (initialState ⟨10, 30, 0⟩) (Or.inr rfl)

/-! ## Lemmas on parsing -/

/-- C4: a poll that fails (network error, non-success status, malformed JSON)
or whose response has `feeds` absent or empty leaves the Reading equal to its
prior value, so that the Reading is still the default (all zero, no timestamp)
after any run of such polls from the start; a poll that delivers a first feed
entry replaces every field by a value computed from that entry alone. -/
theorem fetchData_keeps_or_replaces :
    initialData =
      { soilMoisture := .fin 0, temperature := .fin 0, humidity := .fin 0,
        pumpState := .fin 0, lastUpdated := none } ∧
    (∀ data : Reading, fetchData data .networkError = data) ∧
    (∀ (data : Reading) (status : Nat) (body : Option FeedsResult),
      fetchData data (.response false status body) = data) ∧
    (∀ (data : Reading) (status : Nat), fetchData data (.response true status none) = data) ∧
    (∀ (data : Reading) (status : Nat),
      fetchData data (.response true status (some ⟨none⟩)) = data) ∧
    (∀ (data : Reading) (status : Nat),
      fetchData data (.response true status (some ⟨some []⟩)) = data) ∧
    (∀ (data : Reading) (status : Nat) (latestFeed : Feed) (rest : List Feed),
      fetchData data (.response true status (some ⟨some (latestFeed :: rest)⟩)) =
        { soilMoisture := (parseFloat latestFeed.field1).orZero
          temperature := (parseFloat latestFeed.field2).orZero
          humidity := (parseFloat latestFeed.field3).orZero
          pumpState := (parseInt latestFeed.field4).orZero
          lastUpdated := some ⟨latestFeed.created_at⟩ }) ∧
    (∀ (data : Reading) (outcome : FetchOutcome),
      outcome.delivers = false → fetchData data outcome = data) ∧
    (∀ (now : LocalTime) (outcomes : List FetchOutcome),
      (∀ o ∈ outcomes, o.delivers = false) →
      (outcomes.foldl poll (initialState now)).data = initialData) := by
  have keep : ∀ (data : Reading) (outcome : FetchOutcome),
      outcome.delivers = false → fetchData data outcome = data := by
    intro data outcome h
    match outcome, h with
    | .networkError, _ => rfl
    | .response false _ _, _ => rfl
    | .response true _ none, _ => rfl
    | .response true _ (some ⟨none⟩), _ => rfl
    | .response true _ (some ⟨some []⟩), _ => rfl
    | .response true _ (some ⟨some (_ :: _)⟩), h => simp [FetchOutcome.delivers] at h
  refine ⟨rfl, fun _ => rfl, fun _ _ _ => rfl, fun _ _ => rfl, fun _ _ => rfl,
    fun _ _ => rfl, fun _ _ _ _ => rfl, keep, ?_⟩
  intro now outcomes
  suffices h : ∀ s : AppState, (∀ o ∈ outcomes, o.delivers = false) →
      (outcomes.foldl poll s).data = s.data from h (initialState now)
  induction outcomes with
  | nil => intro s _; rfl
  | cons o os ih =>
    intro s h
    rw [List.foldl_cons, ih (poll s o) (fun o' ho' => h o' (List.mem_cons_of_mem _ ho'))]
    exact keep s.data o (h o (List.mem_cons_self _ _))

/-- Witness of C4: three polls in a row that deliver nothing. -/
theorem fetchData_keeps_or_replaces_witness :
    ([FetchOutcome.networkError, .response false 500 none,
        .response true 200 (some ⟨some []⟩)].foldl poll (initialState ⟨10, 30, 0⟩)).data =
      initialData :=
  fetchData_keeps_or_replaces.2.2.2.2.2.2.2.2 ⟨10, 30, 0⟩ _ (by decide)

/-! ## C10: colours -/

theorem statusAndColor_other (t : String) (v1 v2 : JSNumber)
    (h1 : t ≠ "soil") (h2 : t ≠ "temp") (h3 : t ≠ "humidity") :
    statusAndColor t v1 = statusAndColor t v2 := by
  simp [statusAndColor, statuses, h1, h2, h3]

/-- The label and colour pairs that each kind can produce. -/
theorem statusAndColor_range (t : String) (v : JSNumber) (r : String × Option String)
    (h : statusAndColor t v = .ok r) :
    (t = "soil" → r = ("Critical", some "red") ∨ r = ("Warning", some "orange") ∨
      r = ("Optimal", some "green")) ∧
    (t = "temp" → r = ("Critical", some "red") ∨ r = ("Warning", some "orange") ∨
      r = ("Optimal", some "blue")) ∧
    (t = "humidity" → r = ("Critical", some "cyan") ∨ r = ("Warning", some "orange") ∨
      r = ("Optimal", some "cyan")) ∧
    (t ≠ "soil" → t ≠ "temp" → t ≠ "humidity" → r = ("Optimal", some "gray")) := by
  refine ⟨?_, ?_, ?_, ?_⟩
  · rintro rfl
    rw [statusAndColor_soil] at h
    split_ifs at h <;> simp_all
  · rintro rfl
    rw [statusAndColor_temp] at h
    split_ifs at h <;> simp_all
  · rintro rfl
    rw [statusAndColor_humidity] at h
    split_ifs at h <;> simp_all
  · intro h1 h2 h3
    by_cases h4 : t = "default"
    · subst h4
      simpa [statusAndColor, statuses, statusesDefault, flagSet, eq_comm] using h
    · by_cases h5 : t ∈ objectPrototypeKeys
      · simp [statusAndColor, statuses, h1, h2, h3, h4, h5] at h
      · simpa [statusAndColor, statuses, h1, h2, h3, h4, h5, statusesDefault, flagSet,
          eq_comm] using h

/-- C10 (counterexample): the colour is not a function of the label. Optimal is
green for soil 50 and blue for temperature 25, and humidity 10 (Critical) and
humidity 50 (Optimal) both give cyan. -/
theorem color_not_fixed_by_label :
    getStatusInfo "soil" (.fin 50) = .ok ⟨"Optimal", colorMap "green"⟩ ∧
    getStatusInfo "temp" (.fin 25) = .ok ⟨"Optimal", colorMap "blue"⟩ ∧
    colorMap "green" ≠ colorMap "blue" ∧
    statusAndColor "soil" (.fin 50) = .ok ("Optimal", some "green") ∧
    statusAndColor "temp" (.fin 25) = .ok ("Optimal", some "blue") ∧
    statusAndColor "humidity" (.fin 10) = .ok ("Critical", some "cyan") ∧
    statusAndColor "humidity" (.fin 50) = .ok ("Optimal", some "cyan") ∧
    ¬ (∀ (t1 t2 : String) (v1 v2 : JSNumber) (r1 r2 : String × Option String),
        statusAndColor t1 v1 = .ok r1 → statusAndColor t2 v2 = .ok r2 →
        (r1.1 = r2.1 → r1.2 = r2.2) ∧ (r1.1 ≠ r2.1 → r1.2 ≠ r2.2)) := by
  refine ⟨by decide, by decide, by decide, by decide, by decide, by decide, by decide,
    fun h => ?_⟩
  have h1 := (h "soil" "temp" (.fin 50) (.fin 25) ("Optimal", some "green")
    ("Optimal", some "blue") (by decide) (by decide)).1 rfl
  exact absurd h1 (by decide)

/-- C10 (amended): the colour is fixed by the kind together with the label: two
calls with the same kind that return the same label return the same colour
(and the same object); Warning is orange for every kind; for soil and
temperature, calls that return different labels return different colours. -/
theorem color_fixed_by_kind_and_label :
    (∀ (t : String) (v1 v2 : JSNumber) (r1 r2 : String × Option String),
      statusAndColor t v1 = .ok r1 → statusAndColor t v2 = .ok r2 →
      r1.1 = r2.1 → r1.2 = r2.2) ∧
    (∀ (t : String) (v1 v2 : JSNumber) (i1 i2 : StatusInfo),
      getStatusInfo t v1 = .ok i1 → getStatusInfo t v2 = .ok i2 →
      i1.status = i2.status → i1 = i2) ∧
    (∀ (t : String) (v : JSNumber) (r : String × Option String),
      statusAndColor t v = .ok r → r.1 = "Warning" → r.2 = some "orange") ∧
    (∀ (t : String) (v1 v2 : JSNumber) (r1 r2 : String × Option String),
      t = "soil" ∨ t = "temp" →
      statusAndColor t v1 = .ok r1 → statusAndColor t v2 = .ok r2 →
      r1.1 ≠ r2.1 → r1.2 ≠ r2.2) := by
  have key : ∀ (t : String) (v1 v2 : JSNumber) (r1 r2 : String × Option String),
      statusAndColor t v1 = .ok r1 → statusAndColor t v2 = .ok r2 →
      r1.1 = r2.1 → r1 = r2 := by
    intro t v1 v2 r1 r2 h1 h2 h
    obtain ⟨a1, b1, c1, d1⟩ := statusAndColor_range t v1 r1 h1
    obtain ⟨a2, b2, c2, d2⟩ := statusAndColor_range t v2 r2 h2
    by_cases hs : t = "soil"
    · rcases a1 hs with e | e | e <;> rcases a2 hs with f | f | f <;> subst e f <;>
        first | rfl | exact absurd h (by decide)
    by_cases ht : t = "temp"
    · rcases b1 ht with e | e | e <;> rcases b2 ht with f | f | f <;> subst e f <;>
        first | rfl | exact absurd h (by decide)
    by_cases hh : t = "humidity"
    · rcases c1 hh with e | e | e <;> rcases c2 hh with f | f | f <;> subst e f <;>
        first | rfl | exact absurd h (by decide)
    rw [d1 hs ht hh, d2 hs ht hh]
  refine ⟨?_, ?_, ?_, ?_⟩
  · intro t v1 v2 r1 r2 h1 h2 h
    rw [key t v1 v2 r1 r2 h1 h2 h]
  · intro t v1 v2 i1 i2 h1 h2 h
    unfold getStatusInfo at h1 h2
    cases e1 : statusAndColor t v1 with
    | error e => simp [e1] at h1
    | ok r1 =>
      cases e2 : statusAndColor t v2 with
      | error e => simp [e2] at h2
      | ok r2 =>
        simp only [e1, e2, Except.ok.injEq] at h1 h2
        subst h1 h2
        have := key t v1 v2 r1 r2 e1 e2 h
        subst this
        rfl
  · intro t v r h hw
    obtain ⟨a, b, c, d⟩ := statusAndColor_range t v r h
    by_cases hs : t = "soil"
    · rcases a hs with e | e | e <;> subst e <;> first | rfl | exact absurd hw (by decide)
    by_cases ht : t = "temp"
    · rcases b ht with e | e | e <;> subst e <;> first | rfl | exact absurd hw (by decide)
    by_cases hh : t = "humidity"
    · rcases c hh with e | e | e <;> subst e <;> first | rfl | exact absurd hw (by decide)
    rw [d hs ht hh] at hw
    exact absurd hw (by decide)
  · intro t v1 v2 r1 r2 ht h1 h2 h
    obtain ⟨a1, b1, -, -⟩ := statusAndColor_range t v1 r1 h1
    obtain ⟨a2, b2, -, -⟩ := statusAndColor_range t v2 r2 h2
    rcases ht with ht | ht
    · rcases a1 ht with e | e | e <;> rcases a2 ht with f | f | f <;> subst e f <;>
        first | exact absurd rfl h | decide
    · rcases b1 ht with e | e | e <;> rcases b2 ht with f | f | f <;> subst e f <;>
        first | exact absurd rfl h | decide

/-- Witness of C10 (amended): soil 10 is Critical and red, soil 35 is Warning
and orange. -/
theorem color_fixed_by_kind_and_label_witness :
    statusAndColor "soil" (.fin 10) = .ok ("Critical", some "red") ∧
    statusAndColor "soil" (.fin 35) = .ok ("Warning", some "orange") ∧
    (some "red" : Option String) ≠ some "orange" :=
  ⟨by decide, by decide,
    color_fixed_by_kind_and_label.2.2.2 "soil" (.fin 10) (.fin 35) ("Critical", some "red")
      ("Warning", some "orange") (Or.inl rfl) (by decide) (by decide) (by decide)⟩

end SmartFarm
